import Mathlib

/-!
Shallow embedding of `src/authorizer.py` (an AWS API Gateway custom
authorizer validating Cognito id tokens and emitting IAM-style policy
documents).

External collaborators of the Python code — the `jose` JWT library
(header/claim extraction, base64url decoding, key construction, RSA
signature verification), the `requests` HTTP client, and `time.time()` —
are modelled as oracle data supplied to the embedded functions: each
oracle field records the outcome of the corresponding library call for
the one token under consideration.  Every piece of control flow written
in `authorizer.py` itself (the order of checks, the exception kinds and
messages, the policy accumulation and statement grouping) is translated
line by line below.
-/

namespace CognitoAuthorizer

/-- Python exception kinds that can cross the boundaries of the functions
in `authorizer.py`.  `invalidTokenError` is the repository's own
`InvalidTokenError` class; `nameError` is Python's `NameError` used by
`AuthPolicy` for bad grants and empty policies; `joseJWTError` is the
`jose` library's `JWTError` (raised, e.g., by `jwt.get_unverified_headers`
on a structurally malformed token — it is NOT a subclass of the
repository's `InvalidTokenError`); `requestsError` stands for failures of
the `requests.get` key-set fetch or of parsing its JSON body. -/
inductive PyExc where
  | invalidTokenError (msg : String)
  | nameError (msg : String)
  | joseJWTError (msg : String)
  | requestsError (msg : String)
deriving DecidableEq

deriving instance DecidableEq for Except

/-- Whether an exception is the repository's `InvalidTokenError` — the only
exception class caught by the dedicated handler clause in `lambda_handler`
(line 37 of the source). -/
def isInvalidTokenError : PyExc → Bool
  | .invalidTokenError _ => true
  | _ => false

/-- The unverified JWT header mapping, as returned by
`jwt.get_unverified_headers`; `validate_token` reads only its `kid`. -/
structure UnverifiedHeaders where
  kid : String
deriving DecidableEq

/-- The unverified JWT claims mapping, as returned by
`jwt.get_unverified_claims`; `validate_token` reads `exp` (numeric,
seconds since epoch) and `aud`. -/
structure UnverifiedClaims where
  exp : Int
  aud : String
deriving DecidableEq

/-- One record of the JWKS `keys` array; only `kid` is inspected by the
source's key-matching loop, the key material is consumed opaquely by
`jwk.construct` and is folded into the `verify` oracle. -/
structure Jwk where
  kid : String
deriving DecidableEq

/-- Outcomes of the library calls `validate_token` performs for one fixed
token string:
* `unverifiedHeaders` — `jwt.get_unverified_headers(token)` (line 50);
  `.error` records the exception the library raised (for a token that is
  not three dot-separated base64url segments, jose raises its `JWTError`).
* `keysResponse` — `json.loads(requests.get(keys_url).text)[...]`, the
  `keys` array (lines 53-54); `.error` records a network or JSON failure.
* `decodedSignature` — `base64url_decode(token.rsplit(...)[1])` (line 67),
  the raw signature bytes.
* `verify k sig` — `jwk.construct(k).verify(message, sig)` (line 72),
  where `message` is the header-dot-payload prefix of the token.
* `unverifiedClaims` — `jwt.get_unverified_claims(token)` (line 76).
* `now` — `time.time()` (line 77), seconds since epoch. -/
structure TokenOracle where
  unverifiedHeaders : Except PyExc UnverifiedHeaders
  keysResponse : Except PyExc (List Jwk)
  decodedSignature : Except PyExc (List Nat)
  verify : Jwk → List Nat → Bool
  unverifiedClaims : Except PyExc UnverifiedClaims
  now : Int

/-- The key-matching loop of `validate_token` (source lines 55-58):
`target_key = None; for key in keys: if key.kid == headers.kid:
target_key = key`.  The loop does not break, so on duplicate kids the
last match wins. -/
def findTargetKey (keys : List Jwk) (kid : String) : Option Jwk :=
  keys.foldl (fun target key => if key.kid == kid then some key else target) none

/-- `validate_token` (source lines 47-86), translated branch by branch.
An uncaught library exception propagates as-is (`.error e` from an
oracle); the function's own rejections are `InvalidTokenError` with the
exact message strings of the source. -/
def validate_token (o : TokenOracle) (client_id user_agent : String) : Except PyExc Unit :=
  match o.unverifiedHeaders with
  | .error e => .error e
  | .ok headers =>
    match o.keysResponse with
    | .error e => .error e
    | .ok keys =>
      match findTargetKey keys headers.kid with
      | none => .error (.invalidTokenError "Invalid public key in headers.")
      | some target_key =>
        match o.decodedSignature with
        | .error e => .error e
        | .ok decode_signature =>
          if !(o.verify target_key decode_signature) then
            .error (.invalidTokenError "Invalid token signature.")
          else
            match o.unverifiedClaims with
            | .error e => .error e
            | .ok claims =>
              if o.now > claims.exp then
                .error (.invalidTokenError "Token is expired.")
              else if claims.aud != client_id then
                .error (.invalidTokenError "Invalid aud(Cognito Client ID).")
              else if user_agent != "cognito-authorizer" then
                .error (.invalidTokenError "Invalid UserAgent.")
              else
                .ok ()

/-- One entry of `AuthPolicy.allowMethods` / `denyMethods`: a resource ARN
plus a nullable conditions value (`none` models Python `None`, `some l`
models a list; the source only ever tests `is None or len(...) == 0`). -/
structure Method where
  resourceArn : String
  conditions : Option (List String)
deriving DecidableEq

/-- A policy statement dictionary as produced by `_getEmptyStatement` /
`_getStatementForEffect`; `Condition := none` models the absence of the
`Condition` key. -/
structure Statement where
  Action : String
  Effect : String
  Resource : List String
  Condition : Option (List String) := none
deriving DecidableEq

/-- The `policyDocument` dictionary of the built policy. -/
structure PolicyDocument where
  Version : String
  Statement : List Statement
deriving DecidableEq

/-- The full response dictionary `build` returns; `context` models the
`context` key that `lambda_handler` adds on denial (absent = `none`). -/
structure PolicyResponse where
  principalId : String
  policyDocument : PolicyDocument
  context : Option PyExc := none
deriving DecidableEq

/-- The per-instance state of class `AuthPolicy` (source lines 104-134).
`version` and `pathRegex` are constants and are inlined at use sites. -/
structure AuthPolicy where
  awsAccountId : String
  principalId : String
  restApiId : String
  allowMethods : List Method
  denyMethods : List Method
  region : String
  stage : String
deriving DecidableEq

/-- `AuthPolicy.__init__` (source lines 130-134): sets account and
principal, fresh empty grant lists; `restApiId`, `region`, `stage` keep
their class defaults of `"*"`. -/
def AuthPolicy.init (principal awsAccountId : String) : AuthPolicy :=
  { awsAccountId := awsAccountId
    principalId := principal
    restApiId := "*"
    allowMethods := []
    denyMethods := []
    region := "*"
    stage := "*" }

/-- Membership in the character class of the source's path pattern
(source line 112): slash, dot, ASCII letters, ASCII digits, hyphen,
star. -/
def isPathChar (c : Char) : Bool :=
  c == '/' || c == '.' ||
  ('a' ≤ c && c ≤ 'z') || ('A' ≤ c && c ≤ 'Z') || ('0' ≤ c && c ≤ '9') ||
  c == '-' || c == '*'

/-- Python `re.match` of the anchored pattern on line 112 against the
whole string.  In Python `re`, the trailing anchor also matches just
before a single final newline, so a path consisting of one-or-more class
characters optionally followed by one newline matches.  (Stated over the
character list of the string so that it evaluates by reduction.) -/
def pathRegexMatch (s : String) : Bool :=
  let body := if s.data.getLast? == some '\n' then s.data.dropLast else s.data
  !body.isEmpty && body.all isPathChar

/-- Python `hasattr(HttpVerb, v)` (source line 140): true exactly when
`v` names an attribute of the `HttpVerb` class — one of the eight names
defined in the class body (source lines 93-101), or one of the attribute
names every CPython class inherits from `object` and `type` (such as
`mro`, `__class__`, `__init__`).  The inherited set is fixed by the
running interpreter, not by the repository, so the embedding abstracts
over it as the explicit parameter `inherited`, the way the jose and
requests collaborators are abstracted as oracles. -/
def hasattrHttpVerb (inherited : List String) (v : String) : Bool :=
  v == "GET" || v == "POST" || v == "PUT" || v == "PATCH" ||
  v == "HEAD" || v == "DELETE" || v == "OPTIONS" || v == "ALL" ||
  inherited.contains v

/-- A sample of the attribute names a CPython class inherits from
`object` and `type`, used to instantiate the concrete runs below.  The
set of the real interpreter is larger, but none of its members collide
with the verb, path or effect strings those runs use, so each concrete
outcome below is the outcome of the real program. -/
def cpythonInheritedAttrs : List String :=
  ["mro", "__class__", "__init__", "__doc__", "__module__"]

/-- Python `str.lower` on the ASCII range (sufficient for the source's
comparisons against the ASCII literals `allow` and `deny`). -/
def pyLower (s : String) : String :=
  String.mk (s.data.map Char.toLower)

/-- Python `effect[:1].upper() + effect[1:].lower()` from
`_getEmptyStatement` (source line 167). -/
def pyCapitalize (s : String) : String :=
  match s.data with
  | [] => ""
  | c :: rest => String.mk (Char.toUpper c :: rest.map Char.toLower)

/-- `AuthPolicy._addMethod` (source lines 136-160).  Raises `NameError`
for a bad verb (not star and not an attribute of `HttpVerb`, with the
interpreter-inherited attribute names passed as `inherited`) or a path
not matching the pattern; otherwise strips one leading slash, renders
the ARN with the `.format` template of line 149, and appends to the
allow or deny list depending on `effect.lower()` — any other effect
string falls through both branches and the grant is silently dropped. -/
def AuthPolicy.addMethod (self : AuthPolicy) (inherited : List String)
    (effect verb resource : String)
    (conditions : Option (List String)) : Except PyExc AuthPolicy :=
  if verb != "*" && !hasattrHttpVerb inherited verb then
    .error (.nameError ("Invalid HTTP verb " ++ verb ++ ". Allowed verbs in HttpVerb class"))
  else if !pathRegexMatch resource then
    .error (.nameError ("Invalid resource path: " ++ resource ++
      ". Path should match ^[/.a-zA-Z0-9-\\*]+$"))
  else
    let resource2 : String :=
      if resource.data.head? == some '/' then String.mk (resource.data.drop 1) else resource
    let resourceArn := "arn:aws:execute-api:" ++ self.region ++ ":" ++ self.awsAccountId
      ++ ":" ++ self.restApiId ++ "/" ++ self.stage ++ "/" ++ verb ++ "/" ++ resource2
    if pyLower effect == "allow" then
      .ok { self with allowMethods :=
              self.allowMethods ++ [{ resourceArn := resourceArn, conditions := conditions }] }
    else if pyLower effect == "deny" then
      .ok { self with denyMethods :=
              self.denyMethods ++ [{ resourceArn := resourceArn, conditions := conditions }] }
    else
      .ok self

/-- `AuthPolicy._getEmptyStatement` (source lines 162-171). -/
def getEmptyStatement (effect : String) : Statement :=
  { Action := "execute-api:Invoke"
    Effect := pyCapitalize effect
    Resource := []
    Condition := none }

/-- The emptiness test the loop body applies to a grant's conditions
(source line 182): `conditions is None or len(conditions) == 0`. -/
def condIsEmpty : Option (List String) → Bool
  | none => true
  | some l => l.isEmpty

/-- The statement built for one conditioned grant inside the loop of
`_getStatementForEffect` (source lines 185-187). -/
def condStatement (effect : String) (m : Method) : Statement :=
  { getEmptyStatement effect with Resource := [m.resourceArn], Condition := m.conditions }

/-- One iteration of the loop of `_getStatementForEffect` (source lines
181-188): the accumulator is the pair of the `statements` list built so
far and the single merged `statement` whose resource list is being
extended by unconditioned grants. -/
def statementStep (effect : String) (acc : List Statement × Statement) (m : Method) :
    List Statement × Statement :=
  if condIsEmpty m.conditions then
    (acc.1, { acc.2 with Resource := acc.2.Resource ++ [m.resourceArn] })
  else
    (acc.1 ++ [condStatement effect m], acc.2)

/-- `AuthPolicy._getStatementForEffect` (source lines 173-193): for a
nonempty method list, run the loop, then append the merged statement last
when its resource list is nonempty. -/
def getStatementForEffect (effect : String) (methods : List Method) : List Statement :=
  if methods.length > 0 then
    let acc := methods.foldl (statementStep effect) ([], getEmptyStatement effect)
    if !acc.2.Resource.isEmpty then acc.1 ++ [acc.2] else acc.1
  else
    []

/-- `AuthPolicy.build` (source lines 225-245): `NameError` when both
grant lists are empty, otherwise the Allow statements followed by the
Deny statements under the fixed version string. -/
def AuthPolicy.build (self : AuthPolicy) : Except PyExc PolicyResponse :=
  if self.allowMethods.isEmpty && self.denyMethods.isEmpty then
    .error (.nameError "No statements defined for the policy")
  else
    .ok { principalId := self.principalId
          policyDocument :=
            { Version := "2012-10-17"
              Statement := getStatementForEffect "Allow" self.allowMethods
                ++ getStatementForEffect "Deny" self.denyMethods }
          context := none }

/-- `AuthPolicy.allowAllMethods` (source lines 195-197): a star-verb,
star-path Allow grant with an empty (list) condition. -/
def AuthPolicy.allowAllMethods (self : AuthPolicy) (inherited : List String) :
    Except PyExc AuthPolicy :=
  self.addMethod inherited "Allow" "*" "*" (some [])

/-- `AuthPolicy.denyAllMethods` (source lines 199-201). -/
def AuthPolicy.denyAllMethods (self : AuthPolicy) (inherited : List String) :
    Except PyExc AuthPolicy :=
  self.addMethod inherited "Deny" "*" "*" (some [])

/-- Outcome of one `lambda_handler` invocation: either a returned
response dictionary or an uncaught exception. -/
inductive HandlerOutcome where
  | response (r : PolicyResponse)
  | raised (e : PyExc)
deriving DecidableEq

/-- `lambda_handler` (source lines 12-44): build a fresh `AuthPolicy`
with empty principal and the request's account, region, api id and
stage; validate the token; on success allow all methods and build; on
`InvalidTokenError` deny all methods, build, and attach the exception as
the `context` message; any other exception is re-raised. -/
def lambda_handler (region accountId apiId stage : String) (inherited : List String)
    (o : TokenOracle) (client_id user_agent : String) : HandlerOutcome :=
  let policy : AuthPolicy :=
    { AuthPolicy.init "" accountId with region := region, restApiId := apiId, stage := stage }
  match validate_token o client_id user_agent with
  | .ok _ =>
    match policy.allowAllMethods inherited with
    | .error e => .raised e
    | .ok p2 =>
      match p2.build with
      | .error e => .raised e
      | .ok resp => .response resp
  | .error e =>
    if isInvalidTokenError e then
      match policy.denyAllMethods inherited with
      | .error e2 => .raised e2
      | .ok p2 =>
        match p2.build with
        | .error e2 => .raised e2
        | .ok resp => .response { resp with context := some e }
    else
      .raised e

/-! ## Concrete oracles used by witnesses and counterexamples -/

/-- A token whose payload was tampered with: header parses, its kid is
found in the key set, the signature bytes decode, but RSA verification
fails; the unverified claims still show an expiry far in the future
(year 2030) relative to `now = 0`. -/
def tamperedOracle : TokenOracle :=
  { unverifiedHeaders := .ok { kid := "kid1" }
    keysResponse := .ok [{ kid := "kid1" }]
    decodedSignature := .ok [1, 2, 3]
    verify := fun _ _ => false
    unverifiedClaims := .ok { exp := 1893456000, aud := "client-1" }
    now := 0 }

/-- A fully valid token whose `exp` claim equals the current time
exactly. -/
def expBoundaryOracle : TokenOracle :=
  { unverifiedHeaders := .ok { kid := "kid1" }
    keysResponse := .ok [{ kid := "kid1" }]
    decodedSignature := .ok [1, 2, 3]
    verify := fun _ _ => true
    unverifiedClaims := .ok { exp := 1000, aud := "client-1" }
    now := 1000 }

/-- A valid token that expired one second before the current time. -/
def expiredOracle : TokenOracle :=
  { unverifiedHeaders := .ok { kid := "kid1" }
    keysResponse := .ok [{ kid := "kid1" }]
    decodedSignature := .ok [1, 2, 3]
    verify := fun _ _ => true
    unverifiedClaims := .ok { exp := 999, aud := "client-1" }
    now := 1000 }

/-- A structurally malformed token (for instance the dot-free string
`abc`): `jwt.get_unverified_headers` raises the jose `JWTError` before
anything else in `validate_token` runs, so every later oracle field is
irrelevant. -/
def malformedOracle : TokenOracle :=
  { unverifiedHeaders := .error (.joseJWTError "Error decoding token headers.")
    keysResponse := .ok []
    decodedSignature := .ok []
    verify := fun _ _ => true
    unverifiedClaims := .error (.joseJWTError "Error decoding token claims.")
    now := 0 }

/-! ## C1 — signature is checked before any claim is trusted -/

/-- C1: when the header parses, the key set arrives, a key with the
header kid is found and the signature bytes decode, a failing signature
verification rejects the token with the signature reason — for every
claims oracle, every clock value, every expected client id and every
user agent; the expiry, audience and caller-tag checks are never
reached. -/
theorem C1_signature_checked_first (o : TokenOracle) (client_id user_agent : String)
    (headers : UnverifiedHeaders) (keys : List Jwk) (target_key : Jwk) (sig : List Nat)
    (h1 : o.unverifiedHeaders = .ok headers)
    (h2 : o.keysResponse = .ok keys)
    (h3 : findTargetKey keys headers.kid = some target_key)
    (h4 : o.decodedSignature = .ok sig)
    (h5 : o.verify target_key sig = false) :
    validate_token o client_id user_agent = .error (.invalidTokenError "Invalid token signature.") := by
  simp [validate_token, h1, h2, h3, h4, h5]

/-- C1 witness: the tampered-payload token of `tamperedOracle` carries an
exp thirty years after `now`, yet is rejected with the signature reason,
not the expiry reason. -/
theorem C1_witness :
    validate_token tamperedOracle "client-1" "cognito-authorizer"
      = .error (.invalidTokenError "Invalid token signature.") :=
  C1_signature_checked_first tamperedOracle "client-1" "cognito-authorizer"
    { kid := "kid1" } [{ kid := "kid1" }] { kid := "kid1" } [1, 2, 3]
    rfl rfl rfl rfl rfl

/-! ## C2 — the expiry boundary -/

/-- C2 counterexample: a token whose `exp` equals the current time
(both 1000) passes the whole validation and is NOT rejected as expired,
refuting the claim that `exp <= now` fails with the expired reason. -/
theorem C2_counterexample :
    expBoundaryOracle.unverifiedClaims = .ok { exp := 1000, aud := "client-1" }
    ∧ expBoundaryOracle.now = 1000
    ∧ validate_token expBoundaryOracle "client-1" "cognito-authorizer" = .ok () :=
  ⟨rfl, rfl, rfl⟩

/-- C2 amended: for a token that passes signature verification and whose
claims extract, validation fails with the expired reason if and only if
`exp` is STRICTLY below the current time — the source compares
`time.time() > claims.exp`, so a token whose exp equals the current time
passes the expiry check. -/
theorem C2_expiry_boundary (o : TokenOracle) (client_id user_agent : String)
    (headers : UnverifiedHeaders) (keys : List Jwk) (target_key : Jwk) (sig : List Nat)
    (claims : UnverifiedClaims)
    (h1 : o.unverifiedHeaders = .ok headers)
    (h2 : o.keysResponse = .ok keys)
    (h3 : findTargetKey keys headers.kid = some target_key)
    (h4 : o.decodedSignature = .ok sig)
    (h5 : o.verify target_key sig = true)
    (h6 : o.unverifiedClaims = .ok claims) :
    (validate_token o client_id user_agent = .error (.invalidTokenError "Token is expired."))
      ↔ claims.exp < o.now := by
  simp only [validate_token, h1, h2, h3, h4, h5, Bool.not_true, Bool.false_eq_true,
    if_false, h6]
  by_cases hn : o.now > claims.exp
  · simp [hn, gt_iff_lt.mp hn]
  · simp only [if_neg hn]
    constructor
    · intro hx
      exfalso
      split_ifs at hx <;> simp_all
    · intro hlt
      exact absurd hlt hn

/-- C2 witness: a token that expired one second ago is rejected with the
expired reason, via the amended boundary theorem. -/
theorem C2_witness :
    validate_token expiredOracle "client-1" "cognito-authorizer"
      = .error (.invalidTokenError "Token is expired.") :=
  (C2_expiry_boundary expiredOracle "client-1" "cognito-authorizer"
    { kid := "kid1" } [{ kid := "kid1" }] { kid := "kid1" } [1, 2, 3]
    { exp := 999, aud := "client-1" }
    rfl rfl rfl rfl rfl rfl).mpr (by decide)

/-! ## C4 — malformed tokens -/

/-- C4 counterexample: for a structurally malformed token the jose
header-parsing exception comes out of `validate_token` unchanged; it is
not an `InvalidTokenError` (so no reason string at all, let alone
`malformed`), and `lambda_handler` re-raises it instead of converting it
into a deny-all policy. -/
theorem C4_counterexample :
    validate_token malformedOracle "client-1" "cognito-authorizer"
      = .error (.joseJWTError "Error decoding token headers.")
    ∧ isInvalidTokenError (.joseJWTError "Error decoding token headers.") = false
    ∧ lambda_handler "us-east-1" "111122223333" "abcd123" "prod" cpythonInheritedAttrs
        malformedOracle "client-1" "cognito-authorizer"
      = .raised (.joseJWTError "Error decoding token headers.") :=
  ⟨rfl, rfl, rfl⟩

/-- C4 amended: a token on which `jwt.get_unverified_headers` raises the
jose `JWTError` (as it does for any structurally malformed token) makes
`lambda_handler` re-raise that very exception uncaught, for every
request context; the failure is never an `InvalidTokenError` and never
becomes a deny-all policy. -/
theorem C4_malformed_propagates (region accountId apiId stage client_id user_agent : String)
    (inherited : List String) (o : TokenOracle) (msg : String)
    (h : o.unverifiedHeaders = .error (.joseJWTError msg)) :
    lambda_handler region accountId apiId stage inherited o client_id user_agent
      = .raised (.joseJWTError msg) := by
  unfold lambda_handler validate_token
  rw [h]
  rfl

/-- C4 witness: the malformed-token oracle propagates jose's exception
through the handler. -/
theorem C4_witness :
    lambda_handler "us-west-2" "acct" "api" "dev" cpythonInheritedAttrs malformedOracle
        "cid" "ua"
      = .raised (.joseJWTError "Error decoding token headers.") :=
  C4_malformed_propagates "us-west-2" "acct" "api" "dev" "cid" "ua" cpythonInheritedAttrs
    malformedOracle "Error decoding token headers." rfl

/-! ## C8 — building with zero grants -/

/-- C8: with both grant lists empty, `build` fails with the
no-statements `NameError` for every principal, account, region, api id
and stage. -/
theorem C8_build_empty_fails (principal account region apiId stage : String) :
    ({ AuthPolicy.init principal account with
        region := region, restApiId := apiId, stage := stage }).build
      = .error (.nameError "No statements defined for the policy") :=
  rfl

/-! ## Statement grouping: characterization of the builder loop -/

/-- The standalone statements of one effect: one per conditioned grant,
in insertion order, each carrying its own single resource and its
condition. -/
def condStatements (effect : String) (methods : List Method) : List Statement :=
  (methods.filter (fun m => !condIsEmpty m.conditions)).map (condStatement effect)

/-- The resource ARNs of the unconditioned grants of one effect, in
insertion order. -/
def uncondArns (methods : List Method) : List String :=
  (methods.filter (fun m => condIsEmpty m.conditions)).map (fun m => m.resourceArn)

/-- The merged statement of one effect: a single unconditioned statement
collecting every unconditioned grant's ARN, present exactly when at
least one unconditioned grant exists. -/
def mergedStatements (effect : String) (methods : List Method) : List Statement :=
  if (uncondArns methods).isEmpty then []
  else [{ getEmptyStatement effect with Resource := uncondArns methods }]

/-- The loop of `_getStatementForEffect`, run from any accumulator,
appends the conditioned statements in order and extends the merged
statement's resource list by the unconditioned ARNs in order. -/
lemma statementStep_foldl (effect : String) (methods : List Method)
    (stmts : List Statement) (stmt : Statement) :
    methods.foldl (statementStep effect) (stmts, stmt) =
      (stmts ++ condStatements effect methods,
       { stmt with Resource := stmt.Resource ++ uncondArns methods }) := by
  induction methods generalizing stmts stmt with
  | nil =>
    simp [condStatements, uncondArns]
  | cons m ms ih =>
    simp only [List.foldl_cons, statementStep]
    cases hc : condIsEmpty m.conditions with
    | true =>
      simp only [if_pos rfl, ih]
      simp [condStatements, uncondArns, List.filter_cons, hc, List.append_assoc]
    | false =>
      simp only [Bool.false_eq_true, if_false, ih]
      simp [condStatements, uncondArns, List.filter_cons, hc, List.append_assoc]

/-- `_getStatementForEffect` produces, for any grant list, the
conditioned standalone statements in insertion order followed by the
merged unconditioned statement when one exists. -/
lemma getStatementForEffect_characterization (effect : String) (methods : List Method) :
    getStatementForEffect effect methods
      = condStatements effect methods ++ mergedStatements effect methods := by
  cases methods with
  | nil => rfl
  | cons m ms =>
    have hpos : (m :: ms).length > 0 := Nat.succ_pos _
    simp only [getStatementForEffect, if_pos hpos, statementStep_foldl]
    cases hu : (uncondArns (m :: ms)).isEmpty with
    | true =>
      have hnil : uncondArns (m :: ms) = [] := by simpa using hu
      simp [mergedStatements, hu, getEmptyStatement, hnil]
    | false =>
      simp [mergedStatements, hu, getEmptyStatement]

/-! ## C3 — order of statements in the built document -/

/-- A policy holding one unconditioned Allow grant added before one
conditioned Allow grant, accumulated through the real public interface
in the example request context. -/
def c3policy : Except PyExc AuthPolicy := do
  let p := { AuthPolicy.init "user" "111122223333" with
             region := "us-east-1", restApiId := "abcd123", stage := "prod" }
  let p ← p.addMethod cpythonInheritedAttrs "Allow" "GET" "/a" (some [])
  p.addMethod cpythonInheritedAttrs "Allow" "GET" "/b" (some ["IpAddressCond"])

/-- C3 counterexample: with an unconditioned Allow grant inserted first
and a conditioned Allow grant second, the built document lists the
conditioned standalone statement FIRST and the merged unconditioned
statement LAST — not merged-first as the claim states. -/
theorem C3_counterexample :
    (match c3policy with
     | .ok p =>
       match p.build with
       | .ok r => r.policyDocument.Statement.map (fun s => (s.Condition, s.Resource))
       | .error _ => []
     | .error _ => [])
      = [(some ["IpAddressCond"],
            ["arn:aws:execute-api:us-east-1:111122223333:abcd123/prod/GET/b"]),
         (none,
            ["arn:aws:execute-api:us-east-1:111122223333:abcd123/prod/GET/a"])]
    ∧ (some ["IpAddressCond"] : Option (List String)) ≠ none := by
  constructor
  · decide
  · decide

/-- C3 amended: for every buildable policy the statements appear in
exactly this order — per-grant conditioned Allow statements in insertion
order, then the merged unconditioned Allow statement (if any
unconditioned Allow grant exists), then per-grant conditioned Deny
statements in insertion order, then the merged unconditioned Deny
statement (if any): within each effect, the merged statement comes after
the conditioned ones, not before. -/
theorem C3_statement_order (p : AuthPolicy)
    (h : (p.allowMethods.isEmpty && p.denyMethods.isEmpty) = false) :
    p.build = .ok
      { principalId := p.principalId
        policyDocument :=
          { Version := "2012-10-17"
            Statement := condStatements "Allow" p.allowMethods
              ++ mergedStatements "Allow" p.allowMethods
              ++ condStatements "Deny" p.denyMethods
              ++ mergedStatements "Deny" p.denyMethods }
        context := none } := by
  simp only [AuthPolicy.build, h, Bool.false_eq_true, if_false,
    getStatementForEffect_characterization, List.append_assoc]

/-- The same two-grant state as `c3policy`, written as an explicit
record, for applying the amended order theorem at a concrete input. -/
def c3builtPolicy : AuthPolicy :=
  { awsAccountId := "111122223333"
    principalId := "user"
    restApiId := "abcd123"
    allowMethods :=
      [{ resourceArn := "arn:aws:execute-api:us-east-1:111122223333:abcd123/prod/GET/a"
         conditions := some [] },
       { resourceArn := "arn:aws:execute-api:us-east-1:111122223333:abcd123/prod/GET/b"
         conditions := some ["IpAddressCond"] }]
    denyMethods := []
    region := "us-east-1"
    stage := "prod" }

/-- C3 witness: the two-grant policy is buildable and its statements
come out in the amended order. -/
theorem C3_witness :
    c3builtPolicy.build = .ok
      { principalId := "user"
        policyDocument :=
          { Version := "2012-10-17"
            Statement := condStatements "Allow" c3builtPolicy.allowMethods
              ++ mergedStatements "Allow" c3builtPolicy.allowMethods
              ++ condStatements "Deny" c3builtPolicy.denyMethods
              ++ mergedStatements "Deny" c3builtPolicy.denyMethods }
        context := none } :=
  C3_statement_order c3builtPolicy rfl

/-! ## C7 — merging of unconditioned grants, standalone conditioned grants -/

/-- Conditioned standalone statements never have an empty condition, so
the empty-condition filter drops all of them. -/
lemma condStatements_filter_none (effect : String) (methods : List Method) :
    (condStatements effect methods).filter (fun s => condIsEmpty s.Condition) = [] := by
  induction methods with
  | nil => rfl
  | cons m ms ih =>
    simp only [condStatements, List.filter_cons] at *
    cases hc : condIsEmpty m.conditions with
    | true => simpa [hc] using ih
    | false => simpa [hc, condStatement] using ih

/-- The nonempty-condition filter keeps every conditioned standalone
statement. -/
lemma condStatements_filter_self (effect : String) (methods : List Method) :
    (condStatements effect methods).filter (fun s => !condIsEmpty s.Condition)
      = condStatements effect methods := by
  induction methods with
  | nil => rfl
  | cons m ms ih =>
    simp only [condStatements, List.filter_cons] at *
    cases hc : condIsEmpty m.conditions with
    | true => simpa [hc] using ih
    | false => simpa [hc, condStatement] using ih

/-- The merged statement (when present) is the unique statement with an
empty condition. -/
lemma mergedStatements_filter (effect : String) (methods : List Method) :
    (mergedStatements effect methods).filter (fun s => condIsEmpty s.Condition)
        = mergedStatements effect methods
    ∧ (mergedStatements effect methods).filter (fun s => !condIsEmpty s.Condition) = [] := by
  unfold mergedStatements
  cases hu : (uncondArns methods).isEmpty <;> simp [getEmptyStatement, condIsEmpty]

/-- C7: in the statements built for one effect, the statements with an
empty condition are exactly the single merged statement whose resource
list collects every unconditioned grant's ARN (and no statement at all
when no unconditioned grant exists), while the statements carrying a
condition are exactly one standalone single-resource statement per
conditioned grant, in insertion order and never merged. -/
theorem C7_merge_standalone (effect : String) (methods : List Method) :
    ((getStatementForEffect effect methods).filter (fun s => condIsEmpty s.Condition)
        = mergedStatements effect methods)
    ∧ ((getStatementForEffect effect methods).filter (fun s => !condIsEmpty s.Condition)
        = condStatements effect methods) := by
  constructor
  · rw [getStatementForEffect_characterization, List.filter_append,
      condStatements_filter_none, (mergedStatements_filter effect methods).1]
    simp
  · rw [getStatementForEffect_characterization, List.filter_append,
      condStatements_filter_self, (mergedStatements_filter effect methods).2]
    simp

/-! ## C5 — handler decision mapping -/

/-- The ARN that `allowAllMethods` / `denyAllMethods` render: verb star,
path star, in the request's context (grouped exactly as the source's
format call concatenates it). -/
def starArn (region accountId apiId stage : String) : String :=
  "arn:aws:execute-api:" ++ region ++ ":" ++ accountId ++ ":" ++ apiId
    ++ "/" ++ stage ++ "/" ++ "*" ++ "/" ++ "*"

/-- C5: for every request context and every token, the handler returns
the allow-all document when validation succeeds; when validation fails
with an `InvalidTokenError` it returns a deny-all document with exactly
one unconditioned Deny statement covering verb star and resource star,
carrying the failure reason in the auxiliary `context` field; and every
other exception (key-set fetch failure, jose errors, builder errors)
is re-raised, never converted into a decision. -/
theorem C5_handler_outcomes (region accountId apiId stage client_id user_agent : String)
    (inherited : List String) (o : TokenOracle) :
    lambda_handler region accountId apiId stage inherited o client_id user_agent =
      match validate_token o client_id user_agent with
      | .ok _ => .response
          { principalId := ""
            policyDocument :=
              { Version := "2012-10-17"
                Statement := [{ Action := "execute-api:Invoke", Effect := "Allow",
                                Resource := [starArn region accountId apiId stage],
                                Condition := none }] }
            context := none }
      | .error e =>
        if isInvalidTokenError e then .response
          { principalId := ""
            policyDocument :=
              { Version := "2012-10-17"
                Statement := [{ Action := "execute-api:Invoke", Effect := "Deny",
                                Resource := [starArn region accountId apiId stage],
                                Condition := none }] }
            context := some e }
        else .raised e := by
  cases hv : validate_token o client_id user_agent with
  | ok u =>
    cases u
    unfold lambda_handler
    rw [hv]
    rfl
  | error e =>
    unfold lambda_handler
    rw [hv]
    cases he : isInvalidTokenError e with
    | true => simp only [he]; rfl
    | false => simp only [he]; rfl

/-! ## C6 — ARN rendering -/

/-- C6: for every policy state and every valid verb and path, adding an
Allow grant appends a method whose ARN is exactly the concatenation
arn:aws:execute-api:REGION:ACCOUNT:API/STAGE/VERB/PATH with a single
leading slash of the given path stripped. -/
theorem C6_arn_format (p : AuthPolicy) (inherited : List String) (verb resource : String)
    (conditions : Option (List String))
    (hv : verb = "*" ∨ hasattrHttpVerb inherited verb = true)
    (hp : pathRegexMatch resource = true) :
    p.addMethod inherited "Allow" verb resource conditions = .ok { p with allowMethods :=
      p.allowMethods ++
        [{ resourceArn := "arn:aws:execute-api:" ++ p.region ++ ":" ++ p.awsAccountId
             ++ ":" ++ p.restApiId ++ "/" ++ p.stage ++ "/" ++ verb ++ "/"
             ++ (if resource.data.head? == some '/' then String.mk (resource.data.drop 1)
                 else resource)
           conditions := conditions }] } := by
  have hguard : (verb != "*" && !hasattrHttpVerb inherited verb) = false := by
    rcases hv with h | h <;> simp [h]
  simp only [AuthPolicy.addMethod, hguard, Bool.false_eq_true, if_false, hp, Bool.not_true]
  rfl

/-- The example request context of the specification. -/
def c6policy : AuthPolicy :=
  { AuthPolicy.init "" "111122223333" with
    region := "us-east-1", restApiId := "abcd123", stage := "prod" }

/-- C6 witness: addGrant(Allow, GET, /users/123) in the example context
renders exactly the example ARN. -/
theorem C6_witness :
    c6policy.addMethod cpythonInheritedAttrs "Allow" "GET" "/users/123" (some [])
      = .ok { c6policy with
          allowMethods :=
            [{ resourceArn :=
                 "arn:aws:execute-api:us-east-1:111122223333:abcd123/prod/GET/users/123"
               conditions := some [] }] } :=
  (C6_arn_format c6policy cpythonInheritedAttrs "GET" "/users/123" (some [])
    (Or.inr (by decide)) (by decide)).trans (by decide)

/-! ## C9 — which verbs pass the verb check -/

/-- Whether a call to `_addMethod` returned normally (no exception). -/
def exceptIsOk : Except PyExc AuthPolicy → Bool
  | .ok _ => true
  | .error _ => false

/-- C9 counterexample: the strings ALL and mro are both outside the
claimed enumeration of verbs, yet `_addMethod` accepts both without any
error, because `hasattr(HttpVerb, v)` is true for them — `ALL` is an
attribute defined in the `HttpVerb` class body, `mro` is inherited from
`type` in CPython — and the rendered ARN even carries them as its verb
segment. -/
theorem C9_counterexample :
    ¬ ("ALL" ∈ ["GET", "POST", "PUT", "PATCH", "HEAD", "DELETE", "OPTIONS", "*"])
    ∧ (AuthPolicy.init "user" "acct").addMethod cpythonInheritedAttrs "Allow" "ALL" "*" none
        = .ok { AuthPolicy.init "user" "acct" with allowMethods :=
            [{ resourceArn := "arn:aws:execute-api:*:acct:*/*/ALL/*", conditions := none }] }
    ∧ ¬ ("mro" ∈ ["GET", "POST", "PUT", "PATCH", "HEAD", "DELETE", "OPTIONS", "*"])
    ∧ (AuthPolicy.init "user" "acct").addMethod cpythonInheritedAttrs "Allow" "mro" "*" none
        = .ok { AuthPolicy.init "user" "acct" with allowMethods :=
            [{ resourceArn := "arn:aws:execute-api:*:acct:*/*/mro/*", conditions := none }] } := by
  refine ⟨?_, ?_, ?_, ?_⟩ <;> decide

/-- C9 amended: for a valid path, `_addMethod` returns normally if and
only if the verb is the star string or an attribute of the `HttpVerb`
class — one of the eight class-body names GET, POST, PUT, PATCH, HEAD,
DELETE, OPTIONS, ALL, or one of the attribute names the class inherits
from `object` and `type` in the running interpreter (`mro`, `__init__`,
and so on); a string that is not an attribute of the class fails with
the bad-verb `NameError`. -/
theorem C9_verb_acceptance (p : AuthPolicy) (inherited : List String)
    (effect verb resource : String)
    (conditions : Option (List String))
    (hp : pathRegexMatch resource = true) :
    exceptIsOk (p.addMethod inherited effect verb resource conditions) = true
      ↔ (verb = "*" ∨ hasattrHttpVerb inherited verb = true) := by
  constructor
  · intro hok
    by_contra hno
    push_neg at hno
    have h1 : (verb != "*") = true := by simpa using hno.1
    have h2 : hasattrHttpVerb inherited verb = false := by simpa using hno.2
    rw [AuthPolicy.addMethod] at hok
    simp [h1, h2, exceptIsOk] at hok
  · intro hv
    have hguard : (verb != "*" && !hasattrHttpVerb inherited verb) = false := by
      rcases hv with h | h <;> simp [h]
    simp only [AuthPolicy.addMethod, hguard, Bool.false_eq_true, if_false, hp, Bool.not_true]
    split
    · rfl
    · split <;> rfl

/-- C9 witness: GET with a valid path is accepted. -/
theorem C9_witness :
    exceptIsOk ((AuthPolicy.init "user" "acct").addMethod cpythonInheritedAttrs
        "Allow" "GET" "*" none) = true :=
  (C9_verb_acceptance (AuthPolicy.init "user" "acct") cpythonInheritedAttrs
    "Allow" "GET" "*" none (by decide)).mpr (Or.inr (by decide))

/-! ## C10 — unknown effect strings are silently dropped -/

/-- C10: for every effect string whose lowercasing is neither allow nor
deny, `_addMethod` with a valid verb and path raises nothing and returns
the policy state completely unchanged — the grant lands in neither list
and can therefore never appear in a built document. -/
theorem C10_unknown_effect_dropped (p : AuthPolicy) (inherited : List String)
    (effect verb resource : String)
    (conditions : Option (List String))
    (hv : verb = "*" ∨ hasattrHttpVerb inherited verb = true)
    (hp : pathRegexMatch resource = true)
    (ha : pyLower effect ≠ "allow")
    (hd : pyLower effect ≠ "deny") :
    p.addMethod inherited effect verb resource conditions = .ok p := by
  have hguard : (verb != "*" && !hasattrHttpVerb inherited verb) = false := by
    rcases hv with h | h <;> simp [h]
  have ha2 : (pyLower effect == "allow") = false := by
    rw [beq_eq_false_iff_ne]
    exact ha
  have hd2 : (pyLower effect == "deny") = false := by
    rw [beq_eq_false_iff_ne]
    exact hd
  simp [AuthPolicy.addMethod, hguard, hp, ha2, hd2]

/-- C10 witness: the effect string Permit is silently ignored. -/
theorem C10_witness :
    (AuthPolicy.init "user" "acct").addMethod cpythonInheritedAttrs "Permit" "GET" "/x" none
      = .ok (AuthPolicy.init "user" "acct") :=
  C10_unknown_effect_dropped (AuthPolicy.init "user" "acct") cpythonInheritedAttrs
    "Permit" "GET" "/x" none
    (Or.inr (by decide)) (by decide) (by decide) (by decide)

end CognitoAuthorizer
